import Mathlib

/-!
Verification of the research-assistant core (memory manager, web search
selection, provider dispatch, query pipeline) against its specification.

The Python sources are shallowly embedded: each method of
`memory_manager.py`, `web_search.py`, `ai_client.py`, `app.py` and
`research_assistant.py` that the properties mention becomes a Lean
function over explicit state.  Python dictionaries are modelled as
association lists (insertion-ordered, unique keys in every reachable
state), `os.getenv` results as `Option String`, network calls of the
external backends as oracle parameters, and a Python `raise` as
`Except.error`.
-/

/-! ## Python primitives -/

/-- Python slice `l[-n:]` for a nonnegative `n`.  Python computes the start
index `-n`; for `n = 0` this is `l[0:] = l` (since `-0 = 0`), otherwise the
last `n` elements (all of `l` when `n > l.length`). -/
def pyLastSlice (n : Nat) (l : List α) : List α :=
  if n = 0 then l else l.drop (l.length - n)

/-- Specification-side notion used by the claims: the most recent `n`
elements of `l` (all of `l` when `n > l.length`). -/
def takeLast (n : Nat) (l : List α) : List α :=
  l.drop (l.length - n)

/-- Python truthiness of an `os.getenv` result: `None` and `""` are falsy,
every other string is truthy. -/
def pyBool : Option String → Bool
  | none => false
  | some s => !(s == "")

/-- Python `str()` of an `os.getenv` result as rendered by an f-string:
`None` prints as `"None"`. -/
def pyStr : Option String → String
  | none => "None"
  | some s => s

/-! ## Python `dict` as an association list

All reachable dictionary states have pairwise-distinct keys, so modelling
`d[k] = v` as replace-first-or-append and `del d[k]` as removing every
binding of `k` agrees with Python dictionary semantics. -/

/-- Dictionary lookup `d.get(k)` / `k in d`. -/
def lookupKey (k : String) : List (String × α) → Option α
  | [] => none
  | (k2, v) :: rest => if k2 = k then some v else lookupKey k rest

/-- Dictionary write `d[k] := v`: replaces the binding of `k` in place, or
appends it at the end (Python dicts are insertion ordered). -/
def setKey (k : String) (v : α) : List (String × α) → List (String × α)
  | [] => [(k, v)]
  | (k2, v2) :: rest => if k2 = k then (k, v) :: rest else (k2, v2) :: setKey k v rest

/-- Dictionary delete `del d[k]` (a no-op when `k` is absent, matching the
guarded `if k in d: del d[k]` in the source). -/
def delKey (k : String) : List (String × α) → List (String × α)
  | [] => []
  | (k2, v) :: rest => if k2 = k then delKey k rest else (k2, v) :: delKey k rest

@[simp]
theorem lookupKey_nil (k : String) : lookupKey k ([] : List (String × α)) = none := rfl

theorem lookupKey_setKey (a k : String) (v : α) (l : List (String × α)) :
    lookupKey a (setKey k v l) = if k = a then some v else lookupKey a l := by
  induction l with
  | nil =>
    by_cases h : k = a <;> simp [setKey, lookupKey, h]
  | cons p rest ih =>
    obtain ⟨k2, v2⟩ := p
    by_cases h2 : k2 = k
    · subst h2
      by_cases h : k2 = a <;> simp [setKey, lookupKey, h, ih]
    · by_cases h : k2 = a
      · subst h
        have hk : ¬ k = k2 := fun he => h2 he.symm
        simp [setKey, lookupKey, h2, hk]
      · simp [setKey, lookupKey, h2, h, ih]

theorem lookupKey_delKey (a k : String) (l : List (String × α)) :
    lookupKey a (delKey k l) = if k = a then none else lookupKey a l := by
  induction l with
  | nil => by_cases h : k = a <;> simp [delKey, h]
  | cons p rest ih =>
    obtain ⟨k2, v2⟩ := p
    by_cases h2 : k2 = k
    · subst h2
      by_cases h : k2 = a
      · subst h
        simp [delKey, ih]
      · simp [delKey, lookupKey, h, ih]
    · by_cases h : k2 = a
      · subst h
        have hk : ¬ k = k2 := fun he => h2 he.symm
        simp [delKey, lookupKey, h2, hk]
      · simp [delKey, lookupKey, h2, h, ih]

/-! ## Slice lemmas -/

theorem pyLastSlice_pos (n : Nat) (hn : 1 ≤ n) (l : List α) :
    pyLastSlice n l = takeLast n l := by
  unfold pyLastSlice takeLast
  have : ¬ n = 0 := by omega
  simp [this]

@[simp]
theorem takeLast_nil (n : Nat) : takeLast n ([] : List α) = [] := by
  simp [takeLast]

theorem takeLast_length (n : Nat) (l : List α) : (takeLast n l).length ≤ n := by
  simp only [takeLast, List.length_drop]
  omega

theorem takeLast_of_length_le (n : Nat) (l : List α) (h : l.length ≤ n) :
    takeLast n l = l := by
  unfold takeLast
  have : l.length - n = 0 := by omega
  simp [this]

theorem takeLast_takeLast_append (n : Nat) (a b : List α) :
    takeLast n (takeLast n a ++ b) = takeLast n (a ++ b) := by
  rcases le_or_lt a.length n with h | h
  · rw [takeLast_of_length_le n a h]
  · unfold takeLast
    have hlen : (a.drop (a.length - n)).length = n := by
      simp only [List.length_drop]; omega
    rw [List.length_append, List.length_append, hlen,
        List.drop_append_eq_append_drop, List.drop_append_eq_append_drop,
        List.drop_drop, hlen]
    have h1 : a.length - n + (n + b.length - n) = a.length + b.length - n := by omega
    have h2 : n + b.length - n - n = a.length + b.length - n - a.length := by omega
    rw [h1, h2]

/-! ## MemoryManager (`src/research-assistant/memory_manager.py`)

One exchange is a `(query, response)` pair; `conversation_history` is the
dictionary from session id to exchange list. -/

structure MemoryManager where
  conversation_history : List (String × List (String × String))
  max_history : Nat
  deriving DecidableEq, Repr

/-- Constructor `MemoryManager(max_history_per_session=10)`: empty history
dictionary. -/
def mkMemoryManager (max_history_per_session : Nat := 10) : MemoryManager :=
  { conversation_history := [], max_history := max_history_per_session }

/-- Current exchange list of a session (`[]` for an unseen session id). -/
def MemoryManager.histList (m : MemoryManager) (session_id : String) : List (String × String) :=
  (lookupKey session_id m.conversation_history).getD []

/-- Raw dictionary entry of a session. -/
def MemoryManager.entryOf (m : MemoryManager) (session_id : String) :
    Option (List (String × String)) :=
  lookupKey session_id m.conversation_history

/-- Rendering of one exchange inside `get_context`: the f-string
`f"Q: {q}\nA: {a}"`. -/
def renderExchange (e : String × String) : String :=
  "Q: " ++ e.1 ++ "\nA: " ++ e.2

/-- State-transformer semantics of `MemoryManager.get_context` (lines
14-29): unknown session returns `""`; otherwise the last
`max_history` exchanges (Python slice `[-max_history:]`) are rendered and
joined with `"\n"`.  The method writes nothing, so the returned state is
the input state. -/
def MemoryManager.get_context_st (m : MemoryManager) (session_id : String) :
    String × MemoryManager :=
  match lookupKey session_id m.conversation_history with
  | none => ("", m)
  | some hist =>
      (String.intercalate "\n" ((pyLastSlice m.max_history hist).map renderExchange), m)

/-- Value returned by `get_context`. -/
def MemoryManager.get_context (m : MemoryManager) (session_id : String) : String :=
  (m.get_context_st session_id).1

/-- New exchange list after one `add_exchange` body (lines 40-47): lazily
create `[]` for an unseen session, append `(query, response)`, and if the
length now exceeds `max_history`, keep the Python slice
`[-max_history:]`. -/
def addTrim (max_history : Nat) (hist : List (String × String)) (x : String × String) :
    List (String × String) :=
  let hist1 := hist ++ [x]
  if hist1.length > max_history then pyLastSlice max_history hist1 else hist1

/-- Method `MemoryManager.add_exchange` (lines 31-47). -/
def MemoryManager.add_exchange (m : MemoryManager) (session_id query response : String) :
    MemoryManager :=
  let newHist := addTrim m.max_history (m.histList session_id) (query, response)
  { m with conversation_history := setKey session_id newHist m.conversation_history }

/-- Method `MemoryManager.clear_session` (lines 49-52). -/
def MemoryManager.clear_session (m : MemoryManager) (session_id : String) : MemoryManager :=
  { m with conversation_history := delKey session_id m.conversation_history }

/-! ### Operation sequences over one manager -/

/-- One mutating call on the shared `MemoryManager`. -/
inductive MemOp where
  | add (session_id query response : String)
  | clear (session_id : String)
  deriving DecidableEq, Repr

/-- Session id an operation touches. -/
def MemOp.sid : MemOp → String
  | .add s _ _ => s
  | .clear s => s

/-- Interpretation of one operation. -/
def MemoryManager.applyOp (m : MemoryManager) : MemOp → MemoryManager
  | .add s q r => m.add_exchange s q r
  | .clear s => m.clear_session s

/-- Interpretation of a call sequence, first call first. -/
def MemoryManager.runOps (m : MemoryManager) (ops : List MemOp) : MemoryManager :=
  List.foldl MemoryManager.applyOp m ops

/-- Interpretation of a sequence of `add_exchange (sid, query, response)`
calls, first call first. -/
def MemoryManager.runAdds (m : MemoryManager) (ops : List (String × String × String)) :
    MemoryManager :=
  List.foldl (fun acc t => acc.add_exchange t.1 t.2.1 t.2.2) m ops

/-- The `(query, response)` pairs a call sequence appends to one session,
in call order. -/
def appendsFor (sid : String) : List (String × String × String) → List (String × String)
  | [] => []
  | t :: rest =>
      if t.1 = sid then (t.2.1, t.2.2) :: appendsFor sid rest else appendsFor sid rest

/-- The subsequence of a call sequence touching one session. -/
def opsFor (sid : String) : List MemOp → List MemOp
  | [] => []
  | op :: rest => if op.sid = sid then op :: opsFor sid rest else opsFor sid rest

/-- Effect of one operation on a single session's dictionary entry. -/
def stepEntry (max_history : Nat) (e : Option (List (String × String))) :
    MemOp → Option (List (String × String))
  | .add _ q r => some (addTrim max_history (e.getD []) (q, r))
  | .clear _ => none

/-- Context string as a function of one session's entry alone. -/
def contextOfEntry (max_history : Nat) : Option (List (String × String)) → String
  | none => ""
  | some hist => String.intercalate "\n" ((pyLastSlice max_history hist).map renderExchange)

/-! ### Lemmas about the memory operations -/

theorem get_context_eq_contextOfEntry (m : MemoryManager) (sid : String) :
    m.get_context sid = contextOfEntry m.max_history (m.entryOf sid) := by
  unfold MemoryManager.get_context MemoryManager.get_context_st contextOfEntry
    MemoryManager.entryOf
  cases lookupKey sid m.conversation_history <;> rfl

@[simp]
theorem max_history_add_exchange (m : MemoryManager) (s q r : String) :
    (m.add_exchange s q r).max_history = m.max_history := rfl

@[simp]
theorem max_history_clear_session (m : MemoryManager) (s : String) :
    (m.clear_session s).max_history = m.max_history := rfl

@[simp]
theorem max_history_applyOp (m : MemoryManager) (op : MemOp) :
    (m.applyOp op).max_history = m.max_history := by
  cases op <;> rfl

theorem max_history_runOps (ops : List MemOp) (m : MemoryManager) :
    (m.runOps ops).max_history = m.max_history := by
  induction ops generalizing m with
  | nil => rfl
  | cons op rest ih => simpa [MemoryManager.runOps, List.foldl] using ih (m.applyOp op)

theorem max_history_runAdds (ops : List (String × String × String)) (m : MemoryManager) :
    (m.runAdds ops).max_history = m.max_history := by
  induction ops generalizing m with
  | nil => rfl
  | cons t rest ih =>
    simpa [MemoryManager.runAdds, List.foldl] using ih (m.add_exchange t.1 t.2.1 t.2.2)

theorem entryOf_add_exchange (m : MemoryManager) (s q r sid : String) :
    (m.add_exchange s q r).entryOf sid =
      if s = sid then some (addTrim m.max_history (m.histList s) (q, r))
      else m.entryOf sid := by
  unfold MemoryManager.entryOf MemoryManager.add_exchange
  simp [lookupKey_setKey]

theorem entryOf_clear_session (m : MemoryManager) (s sid : String) :
    (m.clear_session s).entryOf sid = if s = sid then none else m.entryOf sid := by
  unfold MemoryManager.entryOf MemoryManager.clear_session
  simp [lookupKey_delKey]

theorem entryOf_applyOp (m : MemoryManager) (op : MemOp) (sid : String) :
    (m.applyOp op).entryOf sid =
      if op.sid = sid then stepEntry m.max_history (m.entryOf sid) op
      else m.entryOf sid := by
  cases op with
  | add s q r =>
    have : m.histList s = (m.entryOf s).getD [] := rfl
    rw [MemoryManager.applyOp, entryOf_add_exchange, this]
    by_cases h : s = sid
    · subst h; simp [MemOp.sid, stepEntry]
    · simp [MemOp.sid, stepEntry, h]
  | clear s =>
    rw [MemoryManager.applyOp, entryOf_clear_session]
    by_cases h : s = sid
    · subst h; simp [MemOp.sid, stepEntry]
    · simp [MemOp.sid, stepEntry, h]

/-- A session's dictionary entry after a call sequence depends only on its
own subsequence of calls. -/
theorem entryOf_runOps (ops : List MemOp) (m : MemoryManager) (sid : String) :
    (m.runOps ops).entryOf sid =
      List.foldl (stepEntry m.max_history) (m.entryOf sid) (opsFor sid ops) := by
  induction ops generalizing m with
  | nil => rfl
  | cons op rest ih =>
    have hrun : m.runOps (op :: rest) = (m.applyOp op).runOps rest := rfl
    rw [hrun, ih (m.applyOp op), max_history_applyOp, entryOf_applyOp]
    by_cases h : op.sid = sid
    · simp [opsFor, h, List.foldl]
    · simp [opsFor, h]

theorem entryOf_runAdds (ops : List (String × String × String)) (m : MemoryManager)
    (sid : String) :
    (m.runAdds ops).entryOf sid =
      List.foldl (fun e x => some (addTrim m.max_history (e.getD []) x))
        (m.entryOf sid) (appendsFor sid ops) := by
  induction ops generalizing m with
  | nil => rfl
  | cons t rest ih =>
    have hrun : m.runAdds (t :: rest) = (m.add_exchange t.1 t.2.1 t.2.2).runAdds rest := rfl
    have hist : m.histList t.1 = (m.entryOf t.1).getD [] := rfl
    rw [hrun, ih (m.add_exchange t.1 t.2.1 t.2.2), max_history_add_exchange,
        entryOf_add_exchange, hist]
    by_cases h : t.1 = sid
    · subst h; simp [appendsFor, List.foldl]
    · simp [appendsFor, h]

theorem foldl_some_addTrim (N : Nat) (xs : List (String × String)) (l : List (String × String)) :
    List.foldl (fun e x => some (addTrim N (e.getD []) x)) (some l) xs =
      some (List.foldl (addTrim N) l xs) := by
  induction xs generalizing l with
  | nil => rfl
  | cons x rest ih => simpa [List.foldl] using ih (addTrim N l x)

theorem addTrim_eq_takeLast (N : Nat) (hN : 1 ≤ N) (l : List (String × String))
    (x : String × String) :
    addTrim N l x = takeLast N (l ++ [x]) := by
  unfold addTrim
  by_cases hlen : (l ++ [x]).length > N
  · simp only [hlen, if_pos, pyLastSlice_pos N hN]
  · simp only [hlen, if_neg, not_false_iff]
    rw [takeLast_of_length_le]
    simp only [List.length_append, List.length_singleton] at hlen ⊢
    omega

theorem foldl_addTrim_eq_takeLast (N : Nat) (hN : 1 ≤ N) (xs : List (String × String)) :
    ∀ l : List (String × String), l.length ≤ N →
      List.foldl (addTrim N) l xs = takeLast N (l ++ xs) := by
  induction xs with
  | nil =>
    intro l hl
    simp [List.foldl, takeLast_of_length_le N l hl]
  | cons x rest ih =>
    intro l hl
    have hx : addTrim N l x = takeLast N (l ++ [x]) := addTrim_eq_takeLast N hN l x
    have hlen : (addTrim N l x).length ≤ N := by rw [hx]; exact takeLast_length N (l ++ [x])
    calc List.foldl (addTrim N) l (x :: rest)
        = List.foldl (addTrim N) (addTrim N l x) rest := rfl
      _ = takeLast N (addTrim N l x ++ rest) := ih (addTrim N l x) hlen
      _ = takeLast N (takeLast N (l ++ [x]) ++ rest) := by rw [hx]
      _ = takeLast N ((l ++ [x]) ++ rest) := takeLast_takeLast_append N (l ++ [x]) rest
      _ = takeLast N (l ++ x :: rest) := by rw [List.append_assoc]; rfl

/-- Master lemma for a fresh manager with positive capacity: after any
sequence of `add_exchange` calls, a session's dictionary entry is exactly
the most recent `N` of the pairs appended to it (absent when none were). -/
theorem entryOf_runAdds_fresh (N : Nat) (hN : 1 ≤ N) (ops : List (String × String × String))
    (sid : String) :
    ((mkMemoryManager N).runAdds ops).entryOf sid =
      if appendsFor sid ops = [] then none
      else some (takeLast N (appendsFor sid ops)) := by
  have h0 : (mkMemoryManager N).entryOf sid = none := rfl
  rw [entryOf_runAdds, h0]
  cases hxs : appendsFor sid ops with
  | nil => rfl
  | cons x rest =>
    have h1 : List.foldl (fun e x => some (addTrim N ((Option.getD e [])) x))
        (none : Option (List (String × String))) (x :: rest) =
        List.foldl (fun e x => some (addTrim N ((Option.getD e [])) x))
          (some (addTrim N [] x)) rest := rfl
    have hmax : (mkMemoryManager N).max_history = N := rfl
    rw [hmax]
    simp only [h1, foldl_some_addTrim]
    have hx : addTrim N [] x = takeLast N ([] ++ [x]) :=
      addTrim_eq_takeLast N hN [] x
    have hlen : (addTrim N [] x).length ≤ N := by
      rw [hx]; exact takeLast_length N ([] ++ [x])
    rw [foldl_addTrim_eq_takeLast N hN rest (addTrim N [] x) hlen, hx,
        takeLast_takeLast_append]
    simp

theorem histList_eq_entry_getD (m : MemoryManager) (sid : String) :
    m.histList sid = (m.entryOf sid).getD [] := rfl

/-- The pairs appended when every call targets the same session. -/
theorem appendsFor_map_same (sid : String) (qas : List (String × String)) :
    appendsFor sid (qas.map (fun p => (sid, p.1, p.2))) = qas := by
  induction qas with
  | nil => rfl
  | cons p rest ih => simp [appendsFor, List.map, ih]

/-- No pairs are appended to a session no call targets. -/
theorem appendsFor_map_other (sid other : String) (h : other ≠ sid)
    (qas : List (String × String)) :
    appendsFor other (qas.map (fun p => (sid, p.1, p.2))) = [] := by
  induction qas with
  | nil => rfl
  | cons p rest ih =>
    have : ¬ sid = other := fun he => h he.symm
    simp [appendsFor, List.map, this, ih]

/-! ## Process environment

Only the keys the sources read.  `none` models an unset variable
(`os.getenv` returning `None`). -/

structure Env where
  DEEPSEEK_API_KEY : Option String
  OPENAI_API_KEY : Option String
  ANTHROPIC_API_KEY : Option String
  GEMINI_API_KEY : Option String
  HUGGINGFACE_API_KEY : Option String
  SERPAPI_API_KEY : Option String
  GOOGLE_PSE_ID : Option String
  GOOGLE_API_KEY : Option String
  deriving DecidableEq, Repr

/-- Environment with no variable set. -/
def emptyEnv : Env :=
  { DEEPSEEK_API_KEY := none, OPENAI_API_KEY := none, ANTHROPIC_API_KEY := none,
    GEMINI_API_KEY := none, HUGGINGFACE_API_KEY := none, SERPAPI_API_KEY := none,
    GOOGLE_PSE_ID := none, GOOGLE_API_KEY := none }

/-! ## AIClient (`src/research-assistant/ai_client.py`) -/

/-- One entry of the `providers` dictionary built by
`AIClient._initialize_providers` (lines 12-67).  The constant `headers`
dictionaries only repeat the credential and fixed transport constants and
are not read by any modelled operation, so they are not carried. -/
structure ProviderConfig where
  name : String
  api_key : Option String
  api_url : Option String
  enabled : Bool
  deriving DecidableEq, Repr

structure AIClient where
  providers : List (String × ProviderConfig)
  deriving DecidableEq, Repr

/-- Method `AIClient._initialize_providers` (lines 12-67): the `providers`
dictionary, in source order.  Each `enabled` flag is the Python
`bool(os.getenv(...))` of the provider's key. -/
def AIClient.initialize_providers (env : Env) : List (String × ProviderConfig) :=
  [("deepseek",
    { name := "DeepSeek", api_key := env.DEEPSEEK_API_KEY,
      api_url := some "https://api.deepseek.com/v1/chat/completions",
      enabled := pyBool env.DEEPSEEK_API_KEY }),
   ("openai",
    { name := "OpenAI", api_key := env.OPENAI_API_KEY,
      api_url := some "https://api.openai.com/v1/chat/completions",
      enabled := pyBool env.OPENAI_API_KEY }),
   ("anthropic",
    { name := "Anthropic", api_key := env.ANTHROPIC_API_KEY,
      api_url := some "https://api.anthropic.com/v1/messages",
      enabled := pyBool env.ANTHROPIC_API_KEY }),
   ("gemini",
    { name := "Google Gemini", api_key := env.GEMINI_API_KEY,
      api_url := none,
      enabled := pyBool env.GEMINI_API_KEY }),
   ("huggingface",
    { name := "Hugging Face", api_key := env.HUGGINGFACE_API_KEY,
      api_url := some "https://api-inference.huggingface.co/models/mistralai/Mixtral-8x7B-Instruct-v0.1",
      enabled := pyBool env.HUGGINGFACE_API_KEY })]

/-- Constructor `AIClient.__init__` (lines 8-10).  The body has no failure path (the
one SDK call, `genai.configure`, is reached only when Gemini is enabled
and is an external effect); the `Except` return type records that
construction never refuses, in contrast to `ResearchAssistant`. -/
def mkAIClient (env : Env) : Except String AIClient :=
  Except.ok { providers := AIClient.initialize_providers env }

/-- Method `AIClient.get_available_providers` (lines 65-67): names of the enabled
providers, in dictionary order. -/
def AIClient.get_available_providers (env : Env) : List String :=
  ((AIClient.initialize_providers env).filter (fun p => p.2.enabled)).map (fun p => p.1)

/-- Enabled flag of one provider id (`false` for an unknown id). -/
def AIClient.providerEnabled (env : Env) (pid : String) : Bool :=
  ((lookupKey pid (AIClient.initialize_providers env)).map ProviderConfig.enabled).getD false

/-- Method `AIClient.query` (lines 69-95).  The five `_query_*` helpers are plain
HTTP/SDK wrappers (out of core scope); they are modelled by the oracle
`net`, applied to the provider id, query and context.  A disabled provider
is rejected before any branch that could reach `net`. -/
def AIClient.query (net : String → String → String → String) (env : Env)
    (provider query context : String) : String :=
  if ¬ provider ∈ AIClient.get_available_providers env then
    "Provider \x27" ++ provider ++ "\x27 is not available."
  else if provider = "deepseek" then net "deepseek" query context
  else if provider = "openai" then net "openai" query context
  else if provider = "anthropic" then net "anthropic" query context
  else if provider = "gemini" then net "gemini" query context
  else if provider = "huggingface" then net "huggingface" query context
  else "Unknown provider: " ++ provider

/-! ## ResearchAssistant (`src/research_assistant.py`, the CLI variant) -/

/-- The `providers` dictionary of `ResearchAssistant.__init__` (lines
18-47): provider id with its credential.  The fixed `api_url`/`headers`
transport constants are not read by any modelled operation. -/
def ResearchAssistant.providerKeys (env : Env) : List (String × Option String) :=
  [("deepseek", env.DEEPSEEK_API_KEY),
   ("openai", env.OPENAI_API_KEY),
   ("anthropic", env.ANTHROPIC_API_KEY)]

/-- Method `ResearchAssistant._check_available_providers` (lines 55-61): keep a
provider when its key is truthy and not the placeholder
`"your_api_key_here"`. -/
def ResearchAssistant.check_available_providers (env : Env) : List String :=
  ((ResearchAssistant.providerKeys env).filter
    (fun p => pyBool p.2 && !(p.2 == some "your_api_key_here"))).map (fun p => p.1)

structure ResearchAssistant where
  available_providers : List String
  default_provider : String
  deriving DecidableEq, Repr

/-- Constructor `ResearchAssistant.__init__` (lines 11-53): computes the available
providers and raises `ValueError` when the list is empty. -/
def mkResearchAssistant (env : Env) (default_provider : String) :
    Except String ResearchAssistant :=
  let available := ResearchAssistant.check_available_providers env
  if available = [] then
    Except.error "No AI providers configured. Please check your API keys."
  else
    Except.ok { available_providers := available, default_provider := default_provider }

/-! ## WebSearchClient (`src/research-assistant/web_search.py`) -/

/-- One raw result dictionary coming back from a search backend
(`organic_results` items for SerpAPI, `items` for Google PSE); each field
read with `.get(...)` may be absent. -/
structure RawResult where
  title : Option String
  link : Option String
  snippet : Option String
  deriving DecidableEq, Repr

/-- One search result dictionary built by the backends. -/
structure SearchResult where
  title : Option String
  link : Option String
  snippet : Option String
  source : String
  deriving DecidableEq, Repr

structure WebSearchClient where
  serpapi_enabled : Bool
  google_pse_enabled : Bool
  deriving DecidableEq, Repr

/-- Constructor `WebSearchClient.__init__` (lines 8-11). -/
def mkWebSearchClient (env : Env) : WebSearchClient :=
  { serpapi_enabled := pyBool env.SERPAPI_API_KEY,
    google_pse_enabled := pyBool env.GOOGLE_PSE_ID && pyBool env.GOOGLE_API_KEY }

/-- Method `WebSearchClient.is_available` (lines 98-100). -/
def WebSearchClient.is_available (c : WebSearchClient) : Bool :=
  c.serpapi_enabled || c.google_pse_enabled

/-- The external backend call outcome: `Except.error` models an exception
raised inside the `try` block, `Except.ok` the raw result list of a
successful call.  The request always carries `num = 5`, but nothing forces
the backend to honour it. -/
abbrev RawOutcome := Except String (List RawResult)

/-- Number of raw results delivered by a backend call (an exception
delivers none). -/
def rawCount : RawOutcome → Nat
  | Except.error _ => 0
  | Except.ok rs => rs.length

/-- Method `WebSearchClient._search_serpapi` (lines 44-68): every raw
`organic_results` item becomes one result tagged `"SerpAPI"`; any
exception is swallowed and an empty list returned. -/
def searchSerpapi (raw : RawOutcome) : List SearchResult :=
  match raw with
  | Except.error _ => []
  | Except.ok rs =>
      rs.map (fun r => { title := r.title, link := r.link, snippet := r.snippet,
                         source := "SerpAPI" })

/-- Method `WebSearchClient._search_google_pse` (lines 70-96): every raw `items`
item becomes one result tagged `"Google PSE"`; any exception is swallowed
and an empty list returned. -/
def searchGooglePse (raw : RawOutcome) : List SearchResult :=
  match raw with
  | Except.error _ => []
  | Except.ok rs =>
      rs.map (fun r => { title := r.title, link := r.link, snippet := r.snippet,
                         source := "Google PSE" })

/-- Method `WebSearchClient.search` (lines 13-42), with the two backend calls
supplied as outcomes.  In `"auto"` mode SerpAPI is consulted first (when
enabled) and its result returned if non-empty, then Google PSE likewise,
else `[]`; the named modes call their backend only when it is enabled. -/
def WebSearchClient.search (c : WebSearchClient) (serpRaw pseRaw : RawOutcome)
    (engine : String) : List SearchResult :=
  if engine = "auto" then
    let r1 := if c.serpapi_enabled then searchSerpapi serpRaw else []
    if r1 ≠ [] then r1
    else
      let r2 := if c.google_pse_enabled then searchGooglePse pseRaw else []
      if r2 ≠ [] then r2 else []
  else if engine = "serpapi" ∧ c.serpapi_enabled then searchSerpapi serpRaw
  else if engine = "google_pse" ∧ c.google_pse_enabled then searchGooglePse pseRaw
  else []

/-! ## Request pipeline (`src/research-assistant/app.py`, `api_research`) -/

/-- One `/api/research` request after Flask extracts the JSON fields. -/
structure ResearchRequest where
  query : String
  provider : String
  web_search : Bool
  session_id : String
  deriving DecidableEq, Repr

/-- The JSON object `api_research` returns. -/
structure ResearchResponse where
  response : String
  search_results : List SearchResult
  session_id : String
  deriving DecidableEq, Repr

/-- The joined search context built in `api_research` (line 50): each
result rendered by the f-string `f"Source: {r['title']}\nContent:
{r['snippet']}"`, joined with `"\n"`. -/
def searchContextOf (results : List SearchResult) : String :=
  String.intercalate "\n"
    (results.map (fun r => "Source: " ++ pyStr r.title ++ "\nContent: " ++ pyStr r.snippet))

/-- Handler `api_research` (lines 33-63), with the collaborators supplied as
parameters: `aiQuery` is the bound `ai_client.query` (provider id, query,
context), `webSearchFn` the bound `web_search.search`, `webAvailable` the
value of `web_search.is_available()`.  Returns the JSON payload and the
updated shared `MemoryManager`. -/
def api_research (aiQuery : String → String → String → String)
    (webSearchFn : String → List SearchResult) (webAvailable : Bool)
    (mm : MemoryManager) (req : ResearchRequest) : ResearchResponse × MemoryManager :=
  let context := mm.get_context req.session_id
  let found :=
    if req.web_search && webAvailable then
      let rs := webSearchFn req.query
      if rs.isEmpty then (rs, req.query)
      else (rs, req.query ++ "\n\nHere are some web search results for context:\n"
                  ++ searchContextOf rs)
    else (([] : List SearchResult), req.query)
  let response := aiQuery req.provider found.2 context
  let mm2 := mm.add_exchange req.session_id found.2 response
  ({ response := response, search_results := found.1, session_id := req.session_id }, mm2)

/-! ## Claim C1 -/

/-- C1, amended to positive capacity: for a `MemoryManager` built with
`max_history_per_session = N` where `N ≥ 1`, after any sequence of
`add_exchange` calls, every session's exchange list is exactly the most
recent `N` of the pairs appended to that session (FIFO eviction), and in
particular its length never exceeds `N`.  Every prefix of a call sequence
is itself a call sequence, so the bound holds at all times. -/
theorem claim1_fifo_bounded_history (N : Nat) (hN : 1 ≤ N)
    (ops : List (String × String × String)) (sid : String) :
    ((mkMemoryManager N).runAdds ops).histList sid = takeLast N (appendsFor sid ops)
    ∧ (((mkMemoryManager N).runAdds ops).histList sid).length ≤ N := by
  have h := entryOf_runAdds_fresh N hN ops sid
  have hfst : ((mkMemoryManager N).runAdds ops).histList sid
      = takeLast N (appendsFor sid ops) := by
    rw [histList_eq_entry_getD, h]
    cases hxs : appendsFor sid ops with
    | nil => simp
    | cons x rest => simp
  exact ⟨hfst, by rw [hfst]; exact takeLast_length N (appendsFor sid ops)⟩

/-- C1 fails as stated at capacity `N = 0`: the trimming slice
`hist[-0:]` is the whole list in Python, so one `add_exchange` call on a
manager built with `max_history_per_session = 0` leaves a session list of
length `1`, which does not satisfy `1 ≤ 0`. -/
theorem claim1_counterexample :
    (((mkMemoryManager 0).runAdds [("s", "q", "a")]).histList "s").length = 1
    ∧ ¬ ((((mkMemoryManager 0).runAdds [("s", "q", "a")]).histList "s").length
          ≤ (mkMemoryManager 0).max_history) := by
  decide

/-- Witness for C1 at `N = 2` with three appends to one session: exactly
the two most recent exchanges remain. -/
theorem claim1_witness :
    1 ≤ 2
    ∧ (((mkMemoryManager 2).runAdds
          [("s1", "q1", "a1"), ("s1", "q2", "a2"), ("s1", "q3", "a3")]).histList "s1"
          = takeLast 2 (appendsFor "s1"
              [("s1", "q1", "a1"), ("s1", "q2", "a2"), ("s1", "q3", "a3")])
        ∧ (((mkMemoryManager 2).runAdds
              [("s1", "q1", "a1"), ("s1", "q2", "a2"), ("s1", "q3", "a3")]).histList
              "s1").length ≤ 2)
    ∧ ((mkMemoryManager 2).runAdds
          [("s1", "q1", "a1"), ("s1", "q2", "a2"), ("s1", "q3", "a3")]).histList "s1"
        = [("q2", "a2"), ("q3", "a3")] :=
  ⟨by decide,
   claim1_fifo_bounded_history 2 (by decide)
     [("s1", "q1", "a1"), ("s1", "q2", "a2"), ("s1", "q3", "a3")] "s1",
   by decide⟩

/-! ## Claim C2 -/

/-- C2, amended to positive capacity `N ≥ 1`: a session that received
`N + k` appended exchanges (`k ≥ 1`) yields exactly the last `N`
exchanges from `get_context`, oldest first, each rendered as
`"Q: <query>\nA: <response>"` and joined by single newlines; any other
(never-seen) session id yields the empty string. -/
theorem claim2_context_last_n (N k : Nat) (hN : 1 ≤ N) (hk : 1 ≤ k)
    (sid other : String) (hother : other ≠ sid)
    (qas : List (String × String)) (hlen : qas.length = N + k) :
    ((mkMemoryManager N).runAdds (qas.map (fun p => (sid, p.1, p.2)))).get_context sid
      = String.intercalate "\n" ((takeLast N qas).map renderExchange)
    ∧ ((mkMemoryManager N).runAdds (qas.map (fun p => (sid, p.1, p.2)))).get_context other
      = "" := by
  have hmax := max_history_runAdds (qas.map (fun p => (sid, p.1, p.2))) (mkMemoryManager N)
  constructor
  · have hne : ¬ qas = [] := by
      intro hq
      rw [hq] at hlen
      simp only [List.length_nil] at hlen
      omega
    rw [get_context_eq_contextOfEntry, hmax, entryOf_runAdds_fresh N hN,
        appendsFor_map_same, if_neg hne]
    show String.intercalate "\n" ((pyLastSlice N (takeLast N qas)).map renderExchange) = _
    rw [pyLastSlice_pos N hN, takeLast_of_length_le N _ (takeLast_length N qas)]
  · rw [get_context_eq_contextOfEntry, hmax, entryOf_runAdds_fresh N hN,
        appendsFor_map_other sid other hother, if_pos rfl]
    rfl

/-- C2 fails as stated at capacity `N = 0`: with `N = 0` and `k = 1`
append, the claim demands the join of the last `0` exchanges, the empty
string, but `get_context` slices with `[-0:]` and returns the whole
history. -/
theorem claim2_counterexample :
    ((mkMemoryManager 0).runAdds [("s1", "q", "a")]).get_context "s1" = "Q: q\nA: a"
    ∧ ¬ (((mkMemoryManager 0).runAdds [("s1", "q", "a")]).get_context "s1"
          = String.intercalate "\n" ((takeLast 0 [("q", "a")]).map renderExchange)) := by
  decide

/-- Witness for C2 at `N = 2`, `k = 1`: three exchanges appended to
session `"s1"`; the context shows exactly the last two, and session
`"s2"` is empty. -/
theorem claim2_witness :
    1 ≤ 2 ∧ 1 ≤ 1 ∧ ("s2" : String) ≠ "s1"
    ∧ ([("q1", "a1"), ("q2", "a2"), ("q3", "a3")] :
        List (String × String)).length = 2 + 1
    ∧ (((mkMemoryManager 2).runAdds
          ([("q1", "a1"), ("q2", "a2"), ("q3", "a3")].map
            (fun p => ("s1", p.1, p.2)))).get_context "s1"
        = String.intercalate "\n"
            ((takeLast 2 [("q1", "a1"), ("q2", "a2"), ("q3", "a3")]).map renderExchange)
       ∧ ((mkMemoryManager 2).runAdds
            ([("q1", "a1"), ("q2", "a2"), ("q3", "a3")].map
              (fun p => ("s1", p.1, p.2)))).get_context "s2" = "")
    ∧ ((mkMemoryManager 2).runAdds
          ([("q1", "a1"), ("q2", "a2"), ("q3", "a3")].map
            (fun p => ("s1", p.1, p.2)))).get_context "s1"
        = "Q: q2\nA: a2\nQ: q3\nA: a3" :=
  ⟨by decide, by decide, by decide, by decide,
   claim2_context_last_n 2 1 (by decide) (by decide) "s1" "s2" (by decide)
     [("q1", "a1"), ("q2", "a2"), ("q3", "a3")] (by decide),
   by decide⟩

/-! ## Claim C3 -/

/-- C3 (confirmed): in a pipeline invocation with search requested and
available, the provider adapter is dispatched the original query when the
search comes back empty, and otherwise the original query followed by
`"\n\nHere are some web search results for context:\n"` and the rendered
`"Source: <title>\nContent: <snippet>"` lines joined by newlines; and it
is that same (possibly augmented) string that `add_exchange` records as
the query side of the exchange.  The provider oracle `aiQuery` is
universally quantified, so the dispatched string is pinned exactly. -/
theorem claim3_search_augmentation (aiQuery : String → String → String → String)
    (webSearchFn : String → List SearchResult) (mm : MemoryManager)
    (req : ResearchRequest) (hw : req.web_search = true) :
    api_research aiQuery webSearchFn true mm req =
      (let rs := webSearchFn req.query
       let q2 := if rs = [] then req.query
                 else req.query ++ "\n\nHere are some web search results for context:\n"
                        ++ searchContextOf rs
       let resp := aiQuery req.provider q2 (mm.get_context req.session_id)
       ({ response := resp, search_results := rs, session_id := req.session_id },
        mm.add_exchange req.session_id q2 resp)) := by
  unfold api_research
  rw [hw]
  cases hrs : webSearchFn req.query with
  | nil => simp
  | cons x rest => simp

/-- Witness query oracle: tags its three arguments so distinct dispatches
are distinguishable. -/
def witnessAI (provider query context : String) : String :=
  "[" ++ provider ++ "|" ++ query ++ "|" ++ context ++ "]"

/-- Witness search oracle: two fixed results titled "A" and "B". -/
def witnessSearch (q : String) : List SearchResult :=
  if q = q then
    [{ title := some "A", link := some "la", snippet := some "sa", source := "SerpAPI" },
     { title := some "B", link := some "lb", snippet := some "sb", source := "SerpAPI" }]
  else []

/-- Witness request for C3. -/
def witnessReq : ResearchRequest :=
  { query := "What is X?", provider := "deepseek", web_search := true, session_id := "s1" }

/-- Witness for C3: with a two-result search, the exchange recorded for
session `"s1"` carries the augmented query, ending in the two rendered
sources. -/
theorem claim3_witness :
    witnessReq.web_search = true
    ∧ api_research witnessAI witnessSearch true (mkMemoryManager 10) witnessReq =
        (let rs := witnessSearch witnessReq.query
         let q2 := if rs = [] then witnessReq.query
                   else witnessReq.query
                          ++ "\n\nHere are some web search results for context:\n"
                          ++ searchContextOf rs
         let resp := witnessAI witnessReq.provider q2
                       ((mkMemoryManager 10).get_context witnessReq.session_id)
         ({ response := resp, search_results := rs, session_id := witnessReq.session_id },
          (mkMemoryManager 10).add_exchange witnessReq.session_id q2 resp))
    ∧ ((api_research witnessAI witnessSearch true (mkMemoryManager 10)
          witnessReq).2.histList "s1").map Prod.fst
        = ["What is X?\n\nHere are some web search results for context:\nSource: A\nContent: sa\nSource: B\nContent: sb"] :=
  ⟨rfl,
   claim3_search_augmentation witnessAI witnessSearch (mkMemoryManager 10) witnessReq rfl,
   by decide⟩

/-! ## Claim C4 -/

/-- C4 (confirmed): `AIClient.query` on a provider id outside the enabled
set returns exactly `"Provider '<id>' is not available."`.  The network
oracle `net` is universally quantified and absent from the result, so no
network call can contribute to (or is needed for) the answer. -/
theorem claim4_unavailable_provider (net : String → String → String → String) (env : Env)
    (provider query context : String)
    (h : ¬ provider ∈ AIClient.get_available_providers env) :
    AIClient.query net env provider query context
      = "Provider \x27" ++ provider ++ "\x27 is not available." := by
  unfold AIClient.query
  rw [if_pos h]

/-- Witness for C4: with no credentials configured, querying `"openai"`
yields the exact unavailability string, for an arbitrary concrete network
oracle. -/
theorem claim4_witness :
    ¬ ("openai" : String) ∈ AIClient.get_available_providers emptyEnv
    ∧ AIClient.query witnessAI emptyEnv "openai" "hello" ""
        = "Provider \x27" ++ "openai" ++ "\x27 is not available."
    ∧ ("Provider \x27" ++ "openai" ++ "\x27 is not available."
        = "Provider \x27openai\x27 is not available.") :=
  ⟨by decide,
   claim4_unavailable_provider witnessAI emptyEnv "openai" "hello" "" (by decide),
   by decide⟩

/-! ## Claim C5 -/

/-- C5 (confirmed, noninterference): the string `get_context(A)` returns
after any interleaved sequence of `add_exchange` and `clear_session`
calls depends only on the subsequence of calls touching session `A`:
two runs whose call sequences agree on session `A` — in particular two
runs differing only in calls on another session `B` — give identical
`get_context(A)` results, so no exchange of `B` can leak into `A`'s
context. -/
theorem claim5_no_cross_session_leakage (N : Nat) (A : String)
    (ops1 ops2 : List MemOp) (h : opsFor A ops1 = opsFor A ops2) :
    ((mkMemoryManager N).runOps ops1).get_context A
      = ((mkMemoryManager N).runOps ops2).get_context A := by
  rw [get_context_eq_contextOfEntry, get_context_eq_contextOfEntry,
      max_history_runOps, max_history_runOps, entryOf_runOps, entryOf_runOps, h]

/-- Witness for C5: interleaving appends and a clear on session `"bob"`
does not change `"alice"`'s context. -/
theorem claim5_witness :
    opsFor "alice"
        [MemOp.add "alice" "q1" "a1", MemOp.add "bob" "qb" "ab",
         MemOp.add "alice" "q2" "a2", MemOp.clear "bob"]
      = opsFor "alice" [MemOp.add "alice" "q1" "a1", MemOp.add "alice" "q2" "a2"]
    ∧ ((mkMemoryManager 3).runOps
          [MemOp.add "alice" "q1" "a1", MemOp.add "bob" "qb" "ab",
           MemOp.add "alice" "q2" "a2", MemOp.clear "bob"]).get_context "alice"
        = ((mkMemoryManager 3).runOps
            [MemOp.add "alice" "q1" "a1", MemOp.add "alice" "q2" "a2"]).get_context "alice"
    ∧ ((mkMemoryManager 3).runOps
          [MemOp.add "alice" "q1" "a1", MemOp.add "bob" "qb" "ab",
           MemOp.add "alice" "q2" "a2", MemOp.clear "bob"]).get_context "alice"
        = "Q: q1\nA: a1\nQ: q2\nA: a2" :=
  ⟨by decide,
   claim5_no_cross_session_leakage 3 "alice"
     [MemOp.add "alice" "q1" "a1", MemOp.add "bob" "qb" "ab",
      MemOp.add "alice" "q2" "a2", MemOp.clear "bob"]
     [MemOp.add "alice" "q1" "a1", MemOp.add "alice" "q2" "a2"] (by decide),
   by decide⟩

/-! ## Claim C6 -/

theorem length_searchSerpapi (raw : RawOutcome) :
    (searchSerpapi raw).length = rawCount raw := by
  cases raw <;> simp [searchSerpapi, rawCount]

theorem length_searchGooglePse (raw : RawOutcome) :
    (searchGooglePse raw).length = rawCount raw := by
  cases raw <;> simp [searchGooglePse, rawCount]

/-- Every value `search` returns is `[]`, the SerpAPI result list, or the
Google PSE result list. -/
theorem search_result_cases (c : WebSearchClient) (serpRaw pseRaw : RawOutcome)
    (engine : String) :
    WebSearchClient.search c serpRaw pseRaw engine = []
    ∨ WebSearchClient.search c serpRaw pseRaw engine = searchSerpapi serpRaw
    ∨ WebSearchClient.search c serpRaw pseRaw engine = searchGooglePse pseRaw := by
  unfold WebSearchClient.search
  by_cases ha : engine = "auto"
  · rw [if_pos ha]
    by_cases hs : c.serpapi_enabled <;> by_cases hp : c.google_pse_enabled <;>
      simp only [hs, hp, if_true, if_false, Bool.false_eq_true] <;>
      split_ifs <;> simp_all
  · rw [if_neg ha]
    split_ifs <;> simp

/-- C6, amended: the backends do not truncate locally — each raw backend
result becomes exactly one `SearchResult`, so `search` is capped at 5
results only under the assumption that each backend honours the requested
`num = 5` and returns at most 5 raw results. -/
theorem claim6_capped_when_backend_capped (c : WebSearchClient)
    (serpRaw pseRaw : RawOutcome) (engine : String)
    (h1 : rawCount serpRaw ≤ 5) (h2 : rawCount pseRaw ≤ 5) :
    (searchSerpapi serpRaw).length = rawCount serpRaw
    ∧ (searchGooglePse pseRaw).length = rawCount pseRaw
    ∧ (WebSearchClient.search c serpRaw pseRaw engine).length ≤ 5 := by
  refine ⟨length_searchSerpapi serpRaw, length_searchGooglePse pseRaw, ?_⟩
  rcases search_result_cases c serpRaw pseRaw engine with h | h | h <;> rw [h]
  · simp
  · rw [length_searchSerpapi]; exact h1
  · rw [length_searchGooglePse]; exact h2

/-- Environment enabling only the SerpAPI backend. -/
def envSerpOnly : Env := { emptyEnv with SERPAPI_API_KEY := some "k" }

/-- Six raw results, as a backend that ignores the `num = 5` request
parameter would deliver. -/
def sixRawResults : List RawResult :=
  List.replicate 6 { title := some "t", link := some "l", snippet := some "s" }

/-- C6 fails as stated: when the SerpAPI backend returns 6 raw results,
`search` returns all 6 of them — the 5-cap is not enforced in the code,
only requested from the backend. -/
theorem claim6_counterexample :
    ((mkWebSearchClient envSerpOnly).search (Except.ok sixRawResults) (Except.ok [])
        "auto").length = 6
    ∧ ¬ (((mkWebSearchClient envSerpOnly).search (Except.ok sixRawResults) (Except.ok [])
          "auto").length ≤ 5) := by
  decide

/-- Witness for C6: with a 3-result SerpAPI outcome and an erroring
Google PSE outcome, `search` returns at most 5 results. -/
theorem claim6_witness :
    rawCount (Except.ok (List.replicate 3
        ({ title := some "t", link := some "l", snippet := some "s" } : RawResult))) ≤ 5
    ∧ rawCount (Except.error "boom" : RawOutcome) ≤ 5
    ∧ ((searchSerpapi (Except.ok (List.replicate 3
            ({ title := some "t", link := some "l", snippet := some "s" } : RawResult)))).length
          = rawCount (Except.ok (List.replicate 3
              ({ title := some "t", link := some "l", snippet := some "s" } : RawResult)))
        ∧ (searchGooglePse (Except.error "boom" : RawOutcome)).length
            = rawCount (Except.error "boom" : RawOutcome)
        ∧ ((mkWebSearchClient envSerpOnly).search
            (Except.ok (List.replicate 3
              ({ title := some "t", link := some "l", snippet := some "s" } : RawResult)))
            (Except.error "boom") "auto").length ≤ 5) :=
  ⟨by decide, by decide,
   claim6_capped_when_backend_capped (mkWebSearchClient envSerpOnly)
     (Except.ok (List.replicate 3
       ({ title := some "t", link := some "l", snippet := some "s" } : RawResult)))
     (Except.error "boom") "auto" (by decide) (by decide)⟩

/-! ## Claim C7 -/

/-- C7 (confirmed): in `"auto"` mode with both backends enabled, `search`
returns the SerpAPI results when they are non-empty and otherwise falls
through to the Google PSE results (so when both are empty it returns
`[]`); and an internal backend exception yields `[]` from the backend
wrapper instead of propagating, for either backend.  `search` is a total
function into result lists, so no error ever reaches the caller. -/
theorem claim7_auto_fallback (c : WebSearchClient) (serpRaw pseRaw : RawOutcome)
    (e1 e2 : String) (h1 : c.serpapi_enabled = true) (h2 : c.google_pse_enabled = true) :
    WebSearchClient.search c serpRaw pseRaw "auto"
      = (if searchSerpapi serpRaw = [] then searchGooglePse pseRaw
         else searchSerpapi serpRaw)
    ∧ searchSerpapi (Except.error e1) = []
    ∧ searchGooglePse (Except.error e2) = [] := by
  refine ⟨?_, rfl, rfl⟩
  unfold WebSearchClient.search
  rw [if_pos rfl, h1, h2]
  by_cases hs : searchSerpapi serpRaw = []
  · by_cases hp : searchGooglePse pseRaw = [] <;> simp [hs, hp]
  · simp [hs]

/-- Environment enabling both search backends. -/
def envBothSearch : Env :=
  { DEEPSEEK_API_KEY := none, OPENAI_API_KEY := none, ANTHROPIC_API_KEY := none,
    GEMINI_API_KEY := none, HUGGINGFACE_API_KEY := none, SERPAPI_API_KEY := some "k1",
    GOOGLE_PSE_ID := some "cx", GOOGLE_API_KEY := some "k2" }

/-- One raw result for the C7 witness. -/
def oneRawResult : RawResult :=
  { title := some "t", link := some "l", snippet := some "s" }

/-- Witness for C7: an erroring SerpAPI call falls back to a one-result
Google PSE call. -/
theorem claim7_witness :
    (mkWebSearchClient envBothSearch).serpapi_enabled = true
    ∧ (mkWebSearchClient envBothSearch).google_pse_enabled = true
    ∧ ((mkWebSearchClient envBothSearch).search
          (Except.error "serpapi down") (Except.ok [oneRawResult]) "auto"
        = (if searchSerpapi (Except.error "serpapi down") = []
           then searchGooglePse (Except.ok [oneRawResult])
           else searchSerpapi (Except.error "serpapi down"))
       ∧ searchSerpapi (Except.error "boom1") = []
       ∧ searchGooglePse (Except.error "boom2") = [])
    ∧ (mkWebSearchClient envBothSearch).search
          (Except.error "serpapi down") (Except.ok [oneRawResult]) "auto"
        = [{ title := some "t", link := some "l", snippet := some "s",
             source := "Google PSE" }] :=
  ⟨by decide, by decide,
   claim7_auto_fallback (mkWebSearchClient envBothSearch)
     (Except.error "serpapi down") (Except.ok [oneRawResult])
     "boom1" "boom2" (by decide) (by decide),
   by decide⟩

/-! ## Claim C8 -/

/-- Whether an `Except`-modelled constructor finished without raising. -/
def finishedOk : Except String α → Bool
  | Except.ok _ => true
  | Except.error _ => false

/-- C8, amended: only the standalone CLI variant treats an empty provider
set as fatal — `ResearchAssistant.__init__` raises
`ValueError("No AI providers configured. Please check your API keys.")`
when no provider has a usable key; the server variant's `AIClient`
constructor (used by `app.py` at startup) never refuses and simply starts
with an empty enabled set. -/
theorem claim8_fatal_only_cli (env : Env) (d : String)
    (h : ResearchAssistant.check_available_providers env = []) :
    mkResearchAssistant env d
        = Except.error "No AI providers configured. Please check your API keys."
    ∧ finishedOk (mkAIClient env) = true := by
  constructor
  · unfold mkResearchAssistant
    rw [h]
    rfl
  · rfl

/-- C8 fails as stated: with zero providers enabled, the server system's
`AIClient` construction succeeds (no exception, no exit) and the process
starts with an empty available-provider list, instead of refusing to
start. -/
theorem claim8_counterexample :
    finishedOk (mkAIClient emptyEnv) = true
    ∧ AIClient.get_available_providers emptyEnv = [] := by
  decide

/-- Witness for C8 at the empty environment: the CLI constructor raises
with the exact diagnostic, the server constructor finishes. -/
theorem claim8_witness :
    ResearchAssistant.check_available_providers emptyEnv = []
    ∧ (mkResearchAssistant emptyEnv "deepseek"
        = Except.error "No AI providers configured. Please check your API keys."
       ∧ finishedOk (mkAIClient emptyEnv) = true) :=
  ⟨by decide, claim8_fatal_only_cli emptyEnv "deepseek" (by decide)⟩

/-! ## Claim C9 -/

theorem nodup_provider_keys (env : Env) :
    ((AIClient.initialize_providers env).map Prod.fst).Nodup := by
  have h : (AIClient.initialize_providers env).map Prod.fst
      = ["deepseek", "openai", "anthropic", "gemini", "huggingface"] := rfl
  rw [h]
  decide

/-- Membership in the filtered-name list coincides with the looked-up
enabled flag, for any provider dictionary with distinct keys. -/
theorem mem_enabled_names_iff (l : List (String × ProviderConfig)) (pid : String)
    (hnd : (l.map Prod.fst).Nodup) :
    pid ∈ (l.filter (fun p => p.2.enabled)).map (fun p => p.1)
      ↔ ((lookupKey pid l).map ProviderConfig.enabled).getD false = true := by
  induction l with
  | nil => simp [lookupKey]
  | cons p rest ih =>
    obtain ⟨k, cfg⟩ := p
    simp only [List.map_cons, List.nodup_cons] at hnd
    obtain ⟨hk, hnd2⟩ := hnd
    by_cases hpid : k = pid
    · subst hpid
      cases hcfg : cfg.enabled
      · have hnot : ¬ k ∈ (rest.filter (fun p => p.2.enabled)).map (fun p => p.1) := by
          intro hmem
          exact hk (((List.filter_sublist rest).map (fun p => p.1)).subset hmem)
        simp [List.filter_cons, hcfg, lookupKey, hnot]
      · simp [List.filter_cons, hcfg, lookupKey]
    · cases hcfg : cfg.enabled
      · simp only [List.filter_cons, hcfg, if_neg, Bool.false_eq_true, not_false_iff,
          ite_false, lookupKey, hpid]
        exact ih hnd2
      · have hne : ¬ pid = k := fun he => hpid he.symm
        simp only [List.filter_cons, hcfg, ite_true, List.map_cons, List.mem_cons, hne,
          false_or, lookupKey, hpid, if_neg]
        exact ih hnd2

/-- The CLI availability predicate in `Option` terms: truthy and not the
placeholder means present, non-empty, and not `"your_api_key_here"`. -/
theorem raPred_iff (o : Option String) :
    (pyBool o && !(o == some "your_api_key_here")) = true
      ↔ (o ≠ none ∧ o ≠ some "" ∧ o ≠ some "your_api_key_here") := by
  cases o with
  | none => simp [pyBool]
  | some s => simp [pyBool]

theorem mem_check_deepseek (env : Env) :
    "deepseek" ∈ ResearchAssistant.check_available_providers env
      ↔ (pyBool env.DEEPSEEK_API_KEY
          && !(env.DEEPSEEK_API_KEY == some "your_api_key_here")) = true := by
  cases hb1 : pyBool env.DEEPSEEK_API_KEY
      && !(env.DEEPSEEK_API_KEY == some "your_api_key_here") <;>
    cases hb2 : pyBool env.OPENAI_API_KEY
        && !(env.OPENAI_API_KEY == some "your_api_key_here") <;>
      cases hb3 : pyBool env.ANTHROPIC_API_KEY
          && !(env.ANTHROPIC_API_KEY == some "your_api_key_here") <;>
        simp [ResearchAssistant.check_available_providers, ResearchAssistant.providerKeys,
          List.filter_cons, hb1, hb2, hb3]

theorem mem_check_openai (env : Env) :
    "openai" ∈ ResearchAssistant.check_available_providers env
      ↔ (pyBool env.OPENAI_API_KEY
          && !(env.OPENAI_API_KEY == some "your_api_key_here")) = true := by
  cases hb1 : pyBool env.DEEPSEEK_API_KEY
      && !(env.DEEPSEEK_API_KEY == some "your_api_key_here") <;>
    cases hb2 : pyBool env.OPENAI_API_KEY
        && !(env.OPENAI_API_KEY == some "your_api_key_here") <;>
      cases hb3 : pyBool env.ANTHROPIC_API_KEY
          && !(env.ANTHROPIC_API_KEY == some "your_api_key_here") <;>
        simp [ResearchAssistant.check_available_providers, ResearchAssistant.providerKeys,
          List.filter_cons, hb1, hb2, hb3]

theorem mem_check_anthropic (env : Env) :
    "anthropic" ∈ ResearchAssistant.check_available_providers env
      ↔ (pyBool env.ANTHROPIC_API_KEY
          && !(env.ANTHROPIC_API_KEY == some "your_api_key_here")) = true := by
  cases hb1 : pyBool env.DEEPSEEK_API_KEY
      && !(env.DEEPSEEK_API_KEY == some "your_api_key_here") <;>
    cases hb2 : pyBool env.OPENAI_API_KEY
        && !(env.OPENAI_API_KEY == some "your_api_key_here") <;>
      cases hb3 : pyBool env.ANTHROPIC_API_KEY
          && !(env.ANTHROPIC_API_KEY == some "your_api_key_here") <;>
        simp [ResearchAssistant.check_available_providers, ResearchAssistant.providerKeys,
          List.filter_cons, hb1, hb2, hb3]

/-- C9, amended: in `AIClient` a provider's enabled flag equals plain
Python truthiness of its credential — present and non-empty, with no
placeholder filtering — and the available-provider list contains exactly
the enabled ids; the placeholder value `"your_api_key_here"` is filtered
out only by the CLI variant's `_check_available_providers`, whose list
contains a provider exactly when its credential is present, non-empty and
not the placeholder. -/
theorem claim9_enabled_from_credentials (env : Env) (pid : String) :
    (AIClient.providerEnabled env "deepseek" = pyBool env.DEEPSEEK_API_KEY
      ∧ AIClient.providerEnabled env "openai" = pyBool env.OPENAI_API_KEY
      ∧ AIClient.providerEnabled env "anthropic" = pyBool env.ANTHROPIC_API_KEY
      ∧ AIClient.providerEnabled env "gemini" = pyBool env.GEMINI_API_KEY
      ∧ AIClient.providerEnabled env "huggingface" = pyBool env.HUGGINGFACE_API_KEY)
    ∧ (pid ∈ AIClient.get_available_providers env
        ↔ AIClient.providerEnabled env pid = true)
    ∧ ("deepseek" ∈ ResearchAssistant.check_available_providers env
        ↔ (env.DEEPSEEK_API_KEY ≠ none ∧ env.DEEPSEEK_API_KEY ≠ some ""
            ∧ env.DEEPSEEK_API_KEY ≠ some "your_api_key_here"))
    ∧ ("openai" ∈ ResearchAssistant.check_available_providers env
        ↔ (env.OPENAI_API_KEY ≠ none ∧ env.OPENAI_API_KEY ≠ some ""
            ∧ env.OPENAI_API_KEY ≠ some "your_api_key_here"))
    ∧ ("anthropic" ∈ ResearchAssistant.check_available_providers env
        ↔ (env.ANTHROPIC_API_KEY ≠ none ∧ env.ANTHROPIC_API_KEY ≠ some ""
            ∧ env.ANTHROPIC_API_KEY ≠ some "your_api_key_here")) := by
  refine ⟨⟨rfl, rfl, rfl, rfl, rfl⟩, ?_, ?_, ?_, ?_⟩
  · exact mem_enabled_names_iff (AIClient.initialize_providers env) pid
      (nodup_provider_keys env)
  · exact (mem_check_deepseek env).trans (raPred_iff env.DEEPSEEK_API_KEY)
  · exact (mem_check_openai env).trans (raPred_iff env.OPENAI_API_KEY)
  · exact (mem_check_anthropic env).trans (raPred_iff env.ANTHROPIC_API_KEY)

/-- Environment whose only credential is the placeholder value. -/
def placeholderEnv : Env :=
  { DEEPSEEK_API_KEY := none, OPENAI_API_KEY := some "your_api_key_here",
    ANTHROPIC_API_KEY := none, GEMINI_API_KEY := none, HUGGINGFACE_API_KEY := none,
    SERPAPI_API_KEY := none, GOOGLE_PSE_ID := none, GOOGLE_API_KEY := none }

/-- C9 fails as stated: with `OPENAI_API_KEY = "your_api_key_here"`,
`AIClient` marks `"openai"` enabled (and lists it as available) even
though the credential is a placeholder, so enabled is not equivalent to
"present, non-empty and non-placeholder". -/
theorem claim9_counterexample :
    ¬ (AIClient.providerEnabled placeholderEnv "openai" = true
        ↔ (placeholderEnv.OPENAI_API_KEY ≠ none ∧ placeholderEnv.OPENAI_API_KEY ≠ some ""
            ∧ placeholderEnv.OPENAI_API_KEY ≠ some "your_api_key_here")) := by
  decide

/-! ## Claim C10 -/

theorem get_context_st_snd (m : MemoryManager) (sid : String) :
    (m.get_context_st sid).2 = m := by
  unfold MemoryManager.get_context_st
  cases lookupKey sid m.conversation_history <;> rfl

/-- C10 (confirmed): `get_context` is a pure read — for every session id,
known or unknown, the state `get_context_st` hands back is the input
manager unchanged; in particular a call for an unseen id returns `""`,
creates no dictionary entry for it, and a repeated call still returns
`""`. -/
theorem claim10_get_context_pure_read (m : MemoryManager) (sid1 sid2 : String)
    (h : m.entryOf sid2 = none) :
    (m.get_context_st sid1).2 = m
    ∧ (m.get_context_st sid2).1 = ""
    ∧ ((m.get_context_st sid2).2).entryOf sid2 = none
    ∧ (((m.get_context_st sid2).2).get_context_st sid2).1 = "" := by
  unfold MemoryManager.entryOf at h
  have hfst : (m.get_context_st sid2).1 = "" := by
    unfold MemoryManager.get_context_st
    rw [h]
  refine ⟨get_context_st_snd m sid1, hfst, ?_, ?_⟩
  · rw [get_context_st_snd m sid2]
    exact h
  · rw [get_context_st_snd m sid2]
    exact hfst

/-- Witness for C10 on a manager holding one exchange for `"s1"`: reading
`"s1"` leaves the state unchanged, and reading the unseen `"s2"` twice
yields `""` both times without creating an entry. -/
theorem claim10_witness :
    ((mkMemoryManager 10).add_exchange "s1" "q" "a").entryOf "s2" = none
    ∧ ((((mkMemoryManager 10).add_exchange "s1" "q" "a").get_context_st "s1").2
        = (mkMemoryManager 10).add_exchange "s1" "q" "a"
       ∧ (((mkMemoryManager 10).add_exchange "s1" "q" "a").get_context_st "s2").1 = ""
       ∧ ((((mkMemoryManager 10).add_exchange "s1" "q" "a").get_context_st "s2").2).entryOf
            "s2" = none
       ∧ (((((mkMemoryManager 10).add_exchange "s1" "q" "a").get_context_st
              "s2").2).get_context_st "s2").1 = "")
    ∧ (((mkMemoryManager 10).add_exchange "s1" "q" "a").get_context_st "s1").1
        = "Q: q\nA: a" :=
  ⟨by decide,
   claim10_get_context_pure_read ((mkMemoryManager 10).add_exchange "s1" "q" "a")
     "s1" "s2" (by decide),
   by decide⟩
